import Mathlib

/- Verification development for the FingerBerry R503 fingerprint system.
   Shallow embedding of:
   - the link codec of src/fingerprint/r503led.py (calculate_checksum,
     send_command frame construction, control_led parameter mapping),
   - the sensor-manager operation state machines of
     src/fingerprint/r503manager.py (enroll/verify/delete/count/clear,
     LED status mapping, wait-for-finger / wait-finger-removed),
   - the continuous-verification loop and its start/stop management of
     src/api/background.py.
   Stateful Python code is embedded as explicit functions from a device
   oracle (the behaviour the sensor hardware exhibits during one call) to
   a result together with a trace of issued device commands; a Python
   exception is an `Except.error` value threaded by an explicit
   writer-except monad `M`. -/

namespace FingerBerry

/- ------------------------------------------------------------------ -/
/- Link codec: R503LED.calculate_checksum / R503LED.send_command.      -/

/-- Embedding of `R503LED.calculate_checksum`: `sum(data)` followed by
`[(checksum >> 8) & 0xFF, checksum & 0xFF]`. -/
def calculate_checksum (data : List Nat) : List Nat :=
  let checksum := data.sum
  [(checksum >>> 8) &&& 0xFF, checksum &&& 0xFF]

/-- Embedding of the frame built and written by `R503LED.send_command`
(the serial write/settle/read that follows is I/O and not part of the
frame value). -/
def send_command_frame (instruction p1 p2 p3 p4 : Nat) : List Nat :=
  let header := [0xEF, 0x01, 0xFF, 0xFF, 0xFF, 0xFF]
  let identifier := [0x01]
  let parameter := [p1, p2, p3, p4]
  let length := 1 + parameter.length + 2
  let length_bytes := [0x00, length]
  let command_without_checksum := identifier ++ length_bytes ++ [instruction] ++ parameter
  let checksum := calculate_checksum command_without_checksum
  header ++ command_without_checksum ++ checksum

/-- Embedding of the `LEDColor` enum of r503led.py. -/
inductive LEDColor
  | red
  | blue
  | purple
  | green
  | greenYellow
  | lightBlue
  | white
  deriving DecidableEq

/-- Numeric codes of `LEDColor` (r503led.py values 1..7). -/
def LEDColor.code : LEDColor → Nat
  | LEDColor.red => 1
  | LEDColor.blue => 2
  | LEDColor.purple => 3
  | LEDColor.green => 4
  | LEDColor.greenYellow => 5
  | LEDColor.lightBlue => 6
  | LEDColor.white => 7

/-- Embedding of the `LEDMode` enum of r503led.py. -/
inductive LEDMode
  | blink
  | on
  | off
  deriving DecidableEq

/-- Numeric codes of `LEDMode` (r503led.py values 1, 2, 4). -/
def LEDMode.code : LEDMode → Nat
  | LEDMode.blink => 1
  | LEDMode.on => 2
  | LEDMode.off => 4

/-- Embedding of `R503LED.control_led`: instruction 0x35 with parameters
`(mode, 0, color, 0)`. -/
def control_led_frame (mode : LEDMode) (color : LEDColor) : List Nat :=
  send_command_frame 0x35 mode.code 0 color.code 0

/- ------------------------------------------------------------------ -/
/- Sensor manager embedding (r503manager.py).                          -/

/-- Embedding of the `FingerStatus` enum of r503manager.py. -/
inductive FingerStatus
  | success
  | error
  | noFinger
  | alreadyExists
  | notFound
  deriving DecidableEq

/-- Device commands a manager operation can issue over the shared serial
connection (LED writes included: they go over the same port). -/
inductive Ev
  | ledOn (c : LEDColor)
  | ledBlink (c : LEDColor)
  | ledOff
  | sleepTenths (n : Nat)
  | readCount
  | readCapacity
  | readImage
  | waitFinger
  | waitRemoved
  | convertImage (buf : Nat)
  | search
  | createTemplate
  | storeTemplate (slot : Nat)
  | deleteTemplate (slot : Option Int)
  | clearDb
  deriving DecidableEq

deriving instance DecidableEq for Except

/-- Writer-except monad: the result of a Python call (`Except.error` is
an uncaught Python exception) together with the trace of device commands
issued before returning or raising. -/
structure M (α : Type) where
  res : Except Unit α
  trace : List Ev
  deriving DecidableEq

/-- Plain return. -/
def M.ret {α : Type} (a : α) : M α := ⟨Except.ok a, []⟩

/-- Sequencing: a raise short-circuits, traces accumulate. -/
def M.bind {α β : Type} (x : M α) (f : α → M β) : M β :=
  match x.res with
  | Except.ok a => ⟨(f a).res, x.trace ++ (f a).trace⟩
  | Except.error e => ⟨Except.error e, x.trace⟩

/-- Python `try`/`except`: on a raise in the body run the handler (whose
own raise propagates, as a raise inside an `except` block does). -/
def M.attempt {α : Type} (body : M α) (handler : M α) : M α :=
  match body.res with
  | Except.ok a => ⟨Except.ok a, body.trace⟩
  | Except.error _ => ⟨handler.res, body.trace ++ handler.trace⟩

/-- Behaviour the device exhibits during one manager call: the outcome of
each primitive the operation may invoke (`Except.error` = the primitive
raises). `ledOk` tells whether LED serial writes succeed or raise. -/
structure Oracle where
  templateCount : Except Unit Nat
  storageCapacity : Except Unit Nat
  readFingerRes : Except Unit Unit
  readRemovedRes : Except Unit Unit
  convert1Ok : Bool
  convert2Ok : Bool
  searchRes : Except Unit (Int × Nat)
  createOk : Bool
  storeOk : Bool
  deleteRes : Except Unit Bool
  clearOk : Bool
  ledOk : Bool

/-- Manager connection state: whether `self.finger` is set (a successful
`connect` happened). -/
structure Manager where
  fingerConnected : Bool

/-- An LED command: issued on the wire, raises when the LED serial write
fails. -/
def ledCmd (o : Oracle) (e : Ev) : M Unit :=
  ⟨if o.ledOk then Except.ok () else Except.error (), [e]⟩

/-- A device action that succeeds or raises. -/
def devAct (ok : Bool) (e : Ev) : M Unit :=
  ⟨if ok then Except.ok () else Except.error (), [e]⟩

/-- A device query returning a value or raising. -/
def devQuery {α : Type} (r : Except Unit α) (e : Ev) : M α := ⟨r, [e]⟩

/-- Embedding of `time.sleep` (argument in tenths of a second). -/
def sleepTenths (n : Nat) : M Unit := ⟨Except.ok (), [Ev.sleepTenths n]⟩

/-- Embedding of `R503Manager.set_led_status`. -/
def set_led_status (o : Oracle) (status : FingerStatus) : M Unit :=
  match status with
  | FingerStatus.success => ledCmd o (Ev.ledOn LEDColor.green)
  | FingerStatus.noFinger => ledCmd o (Ev.ledBlink LEDColor.blue)
  | FingerStatus.alreadyExists => ledCmd o (Ev.ledBlink LEDColor.purple)
  | FingerStatus.notFound => ledCmd o (Ev.ledBlink LEDColor.red)
  | FingerStatus.error => ledCmd o (Ev.ledOn LEDColor.red)

/-- Embedding of `R503Manager.wait_for_finger`: blue blink (outside the
`try`), poll `readImage` until a finger is present, solid blue; the
`except` block sets the error LED and returns `False`. -/
def wait_for_finger (m : Manager) (o : Oracle) : M Bool :=
  if !m.fingerConnected then M.ret false else
  M.bind (ledCmd o (Ev.ledBlink LEDColor.blue)) fun _ =>
  M.attempt
    (M.bind (devQuery o.readFingerRes Ev.waitFinger) fun _ =>
     M.bind (ledCmd o (Ev.ledOn LEDColor.blue)) fun _ =>
     M.ret true)
    (M.bind (set_led_status o FingerStatus.error) fun _ => M.ret false)

/-- Embedding of `R503Manager.wait_finger_removed`: purple blink (outside
the `try`), poll `readImage` until no finger, LED off, 0.5 s settle. -/
def wait_finger_removed (m : Manager) (o : Oracle) : M Bool :=
  if !m.fingerConnected then M.ret false else
  M.bind (ledCmd o (Ev.ledBlink LEDColor.purple)) fun _ =>
  M.attempt
    (M.bind (devQuery o.readRemovedRes Ev.waitRemoved) fun _ =>
     M.bind (ledCmd o Ev.ledOff) fun _ =>
     M.bind (sleepTenths 5) fun _ =>
     M.ret true)
    (M.bind (set_led_status o FingerStatus.error) fun _ => M.ret false)

/-- Embedding of `R503Manager.enroll_finger` (two-scan protocol). -/
def enroll_finger (m : Manager) (o : Oracle) : M (Bool × Option Int) :=
  if !m.fingerConnected then M.ret (false, none) else
  M.attempt
    (M.bind (devQuery o.templateCount Ev.readCount) fun position =>
     M.bind (devQuery o.storageCapacity Ev.readCapacity) fun capacity =>
     if position ≥ capacity then
       M.bind (set_led_status o FingerStatus.error) fun _ =>
       M.ret (false, none)
     else
       M.bind (wait_for_finger m o) fun ok1 =>
       if !ok1 then M.ret (false, none) else
       M.bind (devAct o.convert1Ok (Ev.convertImage 1)) fun _ =>
       M.bind (wait_finger_removed m o) fun removed1 =>
       if !removed1 then M.ret (false, none) else
       M.bind (wait_for_finger m o) fun ok2 =>
       if !ok2 then M.ret (false, none) else
       M.bind (devAct o.convert2Ok (Ev.convertImage 2)) fun _ =>
       M.bind (devQuery o.searchRes Ev.search) fun result =>
       if result.1 ≥ 0 then
         M.bind (set_led_status o FingerStatus.alreadyExists) fun _ =>
         M.bind (wait_finger_removed m o) fun _ =>
         M.ret (false, some result.1)
       else
         M.bind (devAct o.createOk Ev.createTemplate) fun _ =>
         M.bind (devAct o.storeOk (Ev.storeTemplate position)) fun _ =>
         M.bind (set_led_status o FingerStatus.success) fun _ =>
         M.bind (sleepTenths 10) fun _ =>
         M.bind (ledCmd o Ev.ledOff) fun _ =>
         M.bind (wait_finger_removed m o) fun _ =>
         M.ret (true, some (position : Int)))
    (M.bind (set_led_status o FingerStatus.error) fun _ => M.ret (false, none))

/-- Embedding of `R503Manager.verify_finger`. -/
def verify_finger (m : Manager) (o : Oracle) : M (Bool × Option Int × Option Nat) :=
  if !m.fingerConnected then M.ret (false, none, none) else
  M.attempt
    (M.bind (wait_for_finger m o) fun ok =>
     if !ok then M.ret (false, none, none) else
     M.bind (devAct o.convert1Ok (Ev.convertImage 1)) fun _ =>
     M.bind (devQuery o.searchRes Ev.search) fun result =>
     if result.1 ≥ 0 then
       M.bind (set_led_status o FingerStatus.success) fun _ =>
       M.bind (sleepTenths 10) fun _ =>
       M.bind (ledCmd o Ev.ledOff) fun _ =>
       M.bind (wait_finger_removed m o) fun _ =>
       M.ret (true, some result.1, some result.2)
     else
       M.bind (set_led_status o FingerStatus.notFound) fun _ =>
       M.bind (sleepTenths 10) fun _ =>
       M.bind (ledCmd o Ev.ledOff) fun _ =>
       M.bind (wait_finger_removed m o) fun _ =>
       M.ret (false, none, none))
    (M.bind (set_led_status o FingerStatus.error) fun _ => M.ret (false, none, none))

/-- The tail of `R503Manager.delete_finger` from the `deleteTemplate`
device call on (shared by the explicit-position and verify-first paths). -/
def delete_template_call (o : Oracle) (slot : Option Int) : M Bool :=
  M.bind (devQuery o.deleteRes (Ev.deleteTemplate slot)) fun okDel =>
  if okDel then
    M.bind (set_led_status o FingerStatus.success) fun _ =>
    M.bind (sleepTenths 10) fun _ =>
    M.bind (ledCmd o Ev.ledOff) fun _ =>
    M.ret true
  else
    M.bind (set_led_status o FingerStatus.error) fun _ =>
    M.ret false

/-- Embedding of `R503Manager.delete_finger`. -/
def delete_finger (m : Manager) (o : Oracle) (position : Option Int) : M Bool :=
  if !m.fingerConnected then M.ret false else
  M.attempt
    (match position with
     | some p => delete_template_call o (some p)
     | none =>
       M.bind (verify_finger m o) fun r =>
       if !r.1 then M.ret false
       else delete_template_call o r.2.1)
    (M.bind (set_led_status o FingerStatus.error) fun _ => M.ret false)

/-- Embedding of `R503Manager.get_template_count`. -/
def get_template_count (m : Manager) (o : Oracle) : M (Option Nat) :=
  if !m.fingerConnected then M.ret none else
  M.attempt
    (M.bind (devQuery o.templateCount Ev.readCount) fun count =>
     M.ret (some count))
    (M.bind (set_led_status o FingerStatus.error) fun _ => M.ret none)

/-- Embedding of `R503Manager.clear_database`. -/
def clear_database (m : Manager) (o : Oracle) : M Bool :=
  if !m.fingerConnected then M.ret false else
  M.attempt
    (M.bind (devAct o.clearOk Ev.clearDb) fun _ =>
     M.bind (set_led_status o FingerStatus.success) fun _ =>
     M.bind (sleepTenths 10) fun _ =>
     M.bind (ledCmd o Ev.ledOff) fun _ =>
     M.ret true)
    (M.bind (set_led_status o FingerStatus.error) fun _ => M.ret false)

/- ------------------------------------------------------------------ -/
/- Continuous verification loop (_continuous_loop of background.py).   -/

/-- What one iteration of `_continuous_loop` encounters: either
`readImage` reports no image, or an image whose convert+search yields
`(pos, accuracy)`, or some call in the body raises. -/
inductive IterStep
  | noImage
  | image (pos : Int) (acc : Nat)
  | fault
  deriving DecidableEq

/-- Input to one loop iteration: the `_stop_event` flag as sampled at the
top of the `while`, and what the body then encounters. -/
structure IterIn where
  stopSet : Bool
  step : IterStep
  deriving DecidableEq

/-- Observable actions of the loop: the websocket broadcast of one
continuous-verify message, the wait-finger-removed call, the 100 ms idle
sleep, and the error broadcast of the `except` block. -/
inductive LoopEv
  | broadcastVerify (success : Bool) (pos : Option Int) (acc : Option Nat)
  | waitRemoved
  | slept
  | broadcastError
  deriving DecidableEq

/-- How `_continuous_loop` terminated: stop event seen (cooperative),
body raised (error broadcast then `break`), or the supplied iteration
inputs ran out while the loop was still going. -/
inductive LoopExit
  | stopped
  | faulted
  | pending
  deriving DecidableEq

/-- Actions of one non-faulting iteration body: image present → one
broadcast (`success` iff `pos >= 0`, position/accuracy only on match)
then wait-finger-removed; no image → sleep 0.1 s. -/
def iterBodyEvents (s : IterStep) : List LoopEv :=
  match s with
  | IterStep.noImage => [LoopEv.slept]
  | IterStep.image pos acc =>
    (if pos ≥ 0 then LoopEv.broadcastVerify true (some pos) (some acc)
     else LoopEv.broadcastVerify false none none) :: [LoopEv.waitRemoved]
  | IterStep.fault => []

/-- Embedding of `_continuous_loop`, run against a list of iteration
inputs: check the stop event, run the body; on a raise broadcast one
error message and `break` (the function then returns normally — the
exception never propagates further). -/
def continuous_loop : List IterIn → List LoopEv × LoopExit
  | [] => ([], LoopExit.pending)
  | i :: rest =>
    if i.stopSet then ([], LoopExit.stopped)
    else if i.step = IterStep.fault then ([LoopEv.broadcastError], LoopExit.faulted)
    else
      let r := continuous_loop rest
      (iterBodyEvents i.step ++ r.1, r.2)

/-- Concatenated actions of a list of fault-free, stop-free iterations
(used to state what the loop emitted before a fault or a stop). -/
def cleanIterEvents : List IterIn → List LoopEv
  | [] => []
  | i :: rest => iterBodyEvents i.step ++ cleanIterEvents rest

/- ------------------------------------------------------------------ -/
/- start_continuous / stop_continuous (background.py module state).    -/

/-- Module-level state of background.py around the continuous loop:
whether `_continuous_thread` has ever been assigned, whether that thread
is alive, the `_stop_event` flag, and an instrumentation counter of how
many loop instances are currently running. -/
structure BgState where
  threadSpawned : Bool
  threadAlive : Bool
  stopEvent : Bool
  activeLoops : Nat
  deriving DecidableEq

/-- State at module import: no thread, stop event clear, no loop. -/
def initialBgState : BgState :=
  { threadSpawned := false, threadAlive := false, stopEvent := false, activeLoops := 0 }

/-- Embedding of `start_continuous`: if `_continuous_thread` exists and
is alive, return `False` and change nothing; otherwise clear the stop
event and start one new loop thread, returning `True`. -/
def start_continuous (s : BgState) : Bool × BgState :=
  if s.threadSpawned && s.threadAlive then (false, s)
  else
    (true,
     { threadSpawned := true, threadAlive := true, stopEvent := false,
       activeLoops := s.activeLoops + 1 })

/-- Embedding of `stop_continuous`: set the stop event, return `True`. -/
def stop_continuous (s : BgState) : Bool × BgState :=
  (true, { s with stopEvent := true })

/-- Events acting on the background module state: a start call, a stop
call, or the running loop thread terminating (stop seen or fault). -/
inductive BgOp
  | start
  | stop
  | loopEnds
  deriving DecidableEq

/-- One state transition per background event. -/
def bgStep (s : BgState) : BgOp → BgState
  | BgOp.start => (start_continuous s).2
  | BgOp.stop => (stop_continuous s).2
  | BgOp.loopEnds =>
    if s.threadAlive then
      { s with threadAlive := false, activeLoops := s.activeLoops - 1 }
    else s

/-- Run a sequence of background events from the import-time state. -/
def bgRun (ops : List BgOp) : BgState := ops.foldl bgStep initialBgState

/-- Instance-count invariant: the number of running loop instances is 1
exactly when the tracked thread handle is alive, 0 otherwise. -/
def bgInv (s : BgState) : Prop :=
  s.activeLoops = (if s.threadSpawned && s.threadAlive then 1 else 0)

/- ------------------------------------------------------------------ -/
/- Interleaving model for the shared connection (no lock in source).   -/

/-- Device actions tagged by the context issuing them: a foreground
operation or the continuous loop thread. -/
inductive CtxEv
  | fg (e : Ev)
  | bg (e : Ev)
  deriving DecidableEq

/-- Decides whether `zs` is an interleaving of `xs` and `ys` (order
within each preserved). Any interleaving of the two contexts' device
commands is a possible execution, because background.py contains no lock
serializing them. -/
def isInterleaving {α : Type} [DecidableEq α] : List α → List α → List α → Bool
  | xs, ys, [] => xs.isEmpty && ys.isEmpty
  | xs, ys, z :: zs =>
    (match xs with
     | x :: t => decide (x = z) && isInterleaving t ys zs
     | [] => false)
    ||
    (match ys with
     | y :: t => decide (y = z) && isInterleaving xs t zs
     | [] => false)

/- ------------------------------------------------------------------ -/
/- Concrete device behaviours used in witnesses and counterexamples.   -/

/-- A manager on which `connect` succeeded (`self.finger` is set). -/
def connectedManager : Manager := { fingerConnected := true }

/-- A manager on which no connection was established. -/
def unconnectedManager : Manager := { fingerConnected := false }

/-- A fully cooperative device: empty database (count 0, capacity 200),
finger scans work, the search matches at slot 3 with accuracy 100, all
writes succeed, the LED works. -/
def happyOracle : Oracle :=
  { templateCount := Except.ok 0
    storageCapacity := Except.ok 200
    readFingerRes := Except.ok ()
    readRemovedRes := Except.ok ()
    convert1Ok := true
    convert2Ok := true
    searchRes := Except.ok (3, 100)
    createOk := true
    storeOk := true
    deleteRes := Except.ok true
    clearOk := true
    ledOk := true }

/-- The happy device except that the search finds no match (so an enroll
proceeds to store and a verify reports not-found). -/
def noMatchOracle : Oracle :=
  { happyOracle with searchRes := Except.ok (-1, 0) }

/-- The happy device except that every LED serial write raises. -/
def ledBrokenOracle : Oracle :=
  { happyOracle with searchRes := Except.ok (-1, 0), ledOk := false }

/-- Device commands issued by one image-bearing iteration of
`_continuous_loop`: a single `readImage` check, `convertImage(0x01)`,
`searchTemplate`, then the manager's wait-finger-removed sequence. -/
def continuousIterActs : List Ev :=
  Ev.readImage :: Ev.convertImage 1 :: Ev.search ::
    (wait_finger_removed connectedManager happyOracle).trace

/-- Device commands issued by one foreground `verify_finger` against the
happy device. -/
def foregroundVerifyActs : List Ev :=
  (verify_finger connectedManager happyOracle).trace

/-- A schedule in which the loop iteration runs entirely between the
first and second device command of a foreground verify: both contexts
are mid-operation on the shared connection at once. -/
def unsafeSchedule : List CtxEv :=
  (foregroundVerifyActs.take 1).map CtxEv.fg ++
    continuousIterActs.map CtxEv.bg ++
    (foregroundVerifyActs.drop 1).map CtxEv.fg

/- ------------------------------------------------------------------ -/
/- Helper lemmas.                                                      -/

/-- Sequencing after a normal return. -/
theorem M.bind_ok {α β : Type} (a : α) (t : List Ev) (f : α → M β) :
    M.bind ⟨Except.ok a, t⟩ f = ⟨(f a).res, t ++ (f a).trace⟩ := rfl

/-- Sequencing after a raise. -/
theorem M.bind_error {α β : Type} (e : Unit) (t : List Ev) (f : α → M β) :
    M.bind ⟨Except.error e, t⟩ f = ⟨Except.error e, t⟩ := rfl

/-- A `try` whose body returned normally. -/
theorem M.attempt_ok {α : Type} (a : α) (t : List Ev) (h : M α) :
    M.attempt ⟨Except.ok a, t⟩ h = ⟨Except.ok a, t⟩ := rfl

/-- A `try` whose body raised. -/
theorem M.attempt_error {α : Type} (e : Unit) (t : List Ev) (h : M α) :
    M.attempt ⟨Except.error e, t⟩ h = ⟨h.res, t ++ h.trace⟩ := rfl

/-- Device commands of a successful wait-for-finger. -/
def wffTrace : List Ev :=
  [Ev.ledBlink LEDColor.blue, Ev.waitFinger, Ev.ledOn LEDColor.blue]

/-- Device commands of a successful wait-finger-removed. -/
def wfrTrace : List Ev :=
  [Ev.ledBlink LEDColor.purple, Ev.waitRemoved, Ev.ledOff, Ev.sleepTenths 5]

/-- Wait-for-finger on a connected manager with a working LED and a
successful capture returns `True` with the blue-blink/poll/solid-blue
command sequence. -/
theorem wait_for_finger_ok (o : Oracle) (hled : o.ledOk = true)
    (hwf : o.readFingerRes = Except.ok ()) :
    wait_for_finger connectedManager o = ⟨Except.ok true, wffTrace⟩ := by
  simp [wait_for_finger, connectedManager, ledCmd, devQuery, hled, hwf,
    M.bind, M.attempt, M.ret, wffTrace]

/-- Wait-finger-removed on a connected manager with a working LED and a
successful removal poll returns `True` with the purple-blink/poll/off
command sequence. -/
theorem wait_finger_removed_ok (o : Oracle) (hled : o.ledOk = true)
    (hwr : o.readRemovedRes = Except.ok ()) :
    wait_finger_removed connectedManager o = ⟨Except.ok true, wfrTrace⟩ := by
  simp [wait_finger_removed, connectedManager, ledCmd, devQuery, sleepTenths,
    hled, hwr, M.bind, M.attempt, M.ret, wfrTrace]

/-- Projection of the connected manager, for rewriting without unfolding
`connectedManager` elsewhere. -/
theorem connectedManager_connected : connectedManager.fingerConnected = true := rfl

/-- Device commands of an enrollment from the count read up to and
including the duplicate search. -/
def enrollScansTrace : List Ev :=
  [Ev.readCount, Ev.readCapacity] ++ wffTrace ++ [Ev.convertImage 1] ++
    wfrTrace ++ wffTrace ++ [Ev.convertImage 2, Ev.search]

/- ------------------------------------------------------------------ -/
/- Claim theorems.                                                     -/

/-- C2: for every instruction byte and parameter quadruple the encoded
command frame is the header followed by the packet-type byte, length
field, instruction and parameters, followed by the checksum of exactly
those bytes; and the checksum is the pair of high and low bytes of the
16-bit additive sum of the bytes from the packet-type byte through the
last parameter byte. Determinism is immediate: the frame is a pure
function of the five inputs, with the closed form below. -/
theorem send_command_frame_checksum (instruction p1 p2 p3 p4 : Nat) :
    send_command_frame instruction p1 p2 p3 p4 =
      [0xEF, 0x01, 0xFF, 0xFF, 0xFF, 0xFF] ++
        ([0x01, 0x00, 0x07, instruction, p1, p2, p3, p4] ++
          calculate_checksum [0x01, 0x00, 0x07, instruction, p1, p2, p3, p4]) ∧
    ∀ data : List Nat, ∃ hi lo, calculate_checksum data = [hi, lo] ∧
      hi * 256 + lo = data.sum % 65536 ∧ hi < 256 ∧ lo < 256 := by
  constructor
  · simp [send_command_frame]
  · intro data
    refine ⟨(data.sum >>> 8) &&& 0xFF, data.sum &&& 0xFF, rfl, ?_, ?_, ?_⟩
    · have h1 : (data.sum >>> 8) &&& 0xFF = (data.sum >>> 8) % 256 := by
        simpa using Nat.and_pow_two_sub_one_eq_mod (data.sum >>> 8) 8
      have h2 : data.sum &&& 0xFF = data.sum % 256 := by
        simpa using Nat.and_pow_two_sub_one_eq_mod data.sum 8
      have h3 : data.sum >>> 8 = data.sum / 256 := Nat.shiftRight_eq_div_pow data.sum 8
      rw [h1, h2, h3]
      omega
    · have h1 : (data.sum >>> 8) &&& 0xFF = (data.sum >>> 8) % 256 := by
        simpa using Nat.and_pow_two_sub_one_eq_mod (data.sum >>> 8) 8
      rw [h1]; omega
    · have h2 : data.sum &&& 0xFF = data.sum % 256 := by
        simpa using Nat.and_pow_two_sub_one_eq_mod data.sum 8
      rw [h2]; omega

/-- C3: an enroll attempt whose pre-enrollment template count reaches the
storage capacity returns the failure result `(False, None)` after turning
the LED solid red, having issued only the two count/capacity queries —
in particular no store command and no scan. -/
theorem enroll_capacity_exceeded (o : Oracle) (n cap : Nat)
    (hcount : o.templateCount = Except.ok n)
    (hcap : o.storageCapacity = Except.ok cap)
    (hfull : cap ≤ n)
    (hled : o.ledOk = true) :
    enroll_finger connectedManager o =
      ⟨Except.ok (false, none),
       [Ev.readCount, Ev.readCapacity, Ev.ledOn LEDColor.red]⟩ ∧
    ∀ k, Ev.storeTemplate k ∉ (enroll_finger connectedManager o).trace := by
  have h : enroll_finger connectedManager o =
      ⟨Except.ok (false, none),
       [Ev.readCount, Ev.readCapacity, Ev.ledOn LEDColor.red]⟩ := by
    simp [enroll_finger, connectedManager, devQuery, hcount, hcap, hled,
      set_led_status, ledCmd, M.bind, M.attempt, M.ret, hfull]
  exact ⟨h, by intro k; rw [h]; simp⟩

/-- C10: with no sensor connection established every public manager
operation returns its failure value at once, issuing no device command
at all. -/
theorem unconnected_operations_fail_fast (o : Oracle) (pos : Option Int) :
    enroll_finger unconnectedManager o = ⟨Except.ok (false, none), []⟩ ∧
    verify_finger unconnectedManager o = ⟨Except.ok (false, none, none), []⟩ ∧
    delete_finger unconnectedManager o pos = ⟨Except.ok false, []⟩ ∧
    get_template_count unconnectedManager o = ⟨Except.ok none, []⟩ ∧
    clear_database unconnectedManager o = ⟨Except.ok false, []⟩ :=
  ⟨rfl, rfl, rfl, rfl, rfl⟩

/-- C8 (code evaluation at the failing input): on a device that behaves
identically except that LED serial writes raise, enroll does not return
the success it returns with a working LED — the LED exception aborts the
operation and (re-raised by the error handler's own LED write) escapes
it entirely. LED failures are not swallowed. -/
theorem enroll_led_failure_changes_result :
    (enroll_finger connectedManager noMatchOracle).res = Except.ok (true, some 0) ∧
    (enroll_finger connectedManager ledBrokenOracle).res = Except.error () ∧
    ledBrokenOracle = { noMatchOracle with ledOk := false } :=
  ⟨rfl, rfl, rfl⟩

/-- C9 (code evaluation at the failing input): neither the continuous
loop nor a foreground verify acquires any lock (none exists in the
source), so the schedule in which a full loop iteration's device
commands run between the first and second device command of a foreground
verify is a possible execution: both contexts are mid-operation on the
shared connection at once. -/
theorem loop_and_foreground_interleave :
    isInterleaving (foregroundVerifyActs.map CtxEv.fg)
      (continuousIterActs.map CtxEv.bg) unsafeSchedule = true ∧
    unsafeSchedule.head? = some (CtxEv.fg (Ev.ledBlink LEDColor.blue)) ∧
    unsafeSchedule[1]? = some (CtxEv.bg Ev.readImage) ∧
    unsafeSchedule[8]? = some (CtxEv.fg Ev.waitFinger) :=
  ⟨rfl, rfl, rfl, rfl⟩

/-- C1: once an enrollment reaches the duplicate search after the second
scan, a match at a position >= 0 makes enroll return the failure
`(False, matchedPosition)` — the matched position, not the would-be new
slot — with a purple blink and a final wait-finger-removed, and the
trace contains no store command; with no match it issues createTemplate
and a store at the slot equal to the count read before the first scan
and returns `(True, thatSlot)`. -/
theorem enroll_duplicate_or_store (o : Oracle) (n cap : Nat) (p : Int) (a : Nat)
    (hcount : o.templateCount = Except.ok n)
    (hcap : o.storageCapacity = Except.ok cap)
    (hroom : n < cap)
    (hwf : o.readFingerRes = Except.ok ())
    (hwr : o.readRemovedRes = Except.ok ())
    (hc1 : o.convert1Ok = true)
    (hc2 : o.convert2Ok = true)
    (hled : o.ledOk = true)
    (hsearch : o.searchRes = Except.ok (p, a)) :
    (0 ≤ p →
      enroll_finger connectedManager o =
        ⟨Except.ok (false, some p),
         enrollScansTrace ++ [Ev.ledBlink LEDColor.purple] ++ wfrTrace⟩ ∧
      ∀ k, Ev.storeTemplate k ∉ (enroll_finger connectedManager o).trace) ∧
    (p < 0 → o.createOk = true → o.storeOk = true →
      enroll_finger connectedManager o =
        ⟨Except.ok (true, some (n : Int)),
         enrollScansTrace ++
           [Ev.createTemplate, Ev.storeTemplate n, Ev.ledOn LEDColor.green,
            Ev.sleepTenths 10, Ev.ledOff] ++ wfrTrace⟩) := by
  have hnotfull : ¬ n ≥ cap := Nat.not_le.mpr hroom
  constructor
  · intro hp
    have h : enroll_finger connectedManager o =
        ⟨Except.ok (false, some p),
         enrollScansTrace ++ [Ev.ledBlink LEDColor.purple] ++ wfrTrace⟩ := by
      simp [enroll_finger, connectedManager_connected, devQuery, devAct, hcount,
        hcap, hnotfull, wait_for_finger_ok o hled hwf,
        wait_finger_removed_ok o hled hwr, hc1, hc2, hsearch, set_led_status,
        ledCmd, hled, M.bind_ok, M.bind_error, M.attempt_ok, M.attempt_error,
        M.ret, ge_iff_le, hp, enrollScansTrace, wffTrace, wfrTrace]
    refine ⟨h, ?_⟩
    intro k
    rw [h]
    simp [enrollScansTrace, wffTrace, wfrTrace]
  · intro hp hcreate hstore
    have hnp : ¬ p ≥ 0 := by omega
    simp [enroll_finger, connectedManager_connected, devQuery, devAct, hcount,
      hcap, hnotfull, wait_for_finger_ok o hled hwf,
      wait_finger_removed_ok o hled hwr, hc1, hc2, hsearch, hcreate, hstore,
      set_led_status, ledCmd, sleepTenths, hled, M.bind_ok, M.bind_error,
      M.attempt_ok, M.attempt_error, M.ret, hnp, enrollScansTrace, wffTrace,
      wfrTrace]

/-- C1 witness: on a concrete device with one stored duplicate at slot 3
the duplicate branch fires, and on the same device with no match the
store-at-count branch fires. -/
theorem enroll_duplicate_or_store_witness :
    (enroll_finger connectedManager happyOracle =
      ⟨Except.ok (false, some 3),
       enrollScansTrace ++ [Ev.ledBlink LEDColor.purple] ++ wfrTrace⟩ ∧
     ∀ k, Ev.storeTemplate k ∉ (enroll_finger connectedManager happyOracle).trace) ∧
    enroll_finger connectedManager noMatchOracle =
      ⟨Except.ok (true, some 0),
       enrollScansTrace ++
         [Ev.createTemplate, Ev.storeTemplate 0, Ev.ledOn LEDColor.green,
          Ev.sleepTenths 10, Ev.ledOff] ++ wfrTrace⟩ := by
  refine ⟨(enroll_duplicate_or_store happyOracle 0 200 3 100 rfl rfl (by decide)
    rfl rfl rfl rfl rfl rfl).1 (by decide), ?_⟩
  exact (enroll_duplicate_or_store noMatchOracle 0 200 (-1) 0 rfl rfl (by decide)
    rfl rfl rfl rfl rfl rfl).2 (by decide) rfl rfl

/-- C3 witness: a concrete full database (count 200, capacity 200). -/
theorem enroll_capacity_exceeded_witness :
    enroll_finger connectedManager { happyOracle with templateCount := Except.ok 200 } =
      ⟨Except.ok (false, none),
       [Ev.readCount, Ev.readCapacity, Ev.ledOn LEDColor.red]⟩ ∧
    ∀ k, Ev.storeTemplate k ∉
      (enroll_finger connectedManager
        { happyOracle with templateCount := Except.ok 200 }).trace :=
  enroll_capacity_exceeded { happyOracle with templateCount := Except.ok 200 }
    200 200 rfl rfl (by decide) rfl

/-- Success-path characterization of verify on a connected manager:
match at `q` yields `(True, q, accuracy)` with green LED held one
second, LED off, then the wait-finger-removed sequence. -/
theorem verify_match_ok (o : Oracle) (q : Int) (b : Nat)
    (hled : o.ledOk = true)
    (hwf : o.readFingerRes = Except.ok ())
    (hwr : o.readRemovedRes = Except.ok ())
    (hc1 : o.convert1Ok = true)
    (hsearch : o.searchRes = Except.ok (q, b))
    (hhit : 0 ≤ q) :
    verify_finger connectedManager o =
      ⟨Except.ok (true, some q, some b),
       wffTrace ++
         [Ev.convertImage 1, Ev.search, Ev.ledOn LEDColor.green,
          Ev.sleepTenths 10, Ev.ledOff] ++ wfrTrace⟩ := by
  simp [verify_finger, connectedManager_connected, devQuery, devAct, hc1,
    hsearch, wait_for_finger_ok o hled hwf, wait_finger_removed_ok o hled hwr,
    set_led_status, ledCmd, sleepTenths, hled, M.bind_ok, M.bind_error,
    M.attempt_ok, M.attempt_error, M.ret, ge_iff_le, hhit, wffTrace, wfrTrace]

/-- C5: a verify whose search reports no match returns
`(False, None, None)` after a red blink held for one second and the LED
turned off, and still runs the full wait-finger-removed sequence before
returning — the same terminal sequence as the success path, whose trace
is given by the second conjunct. -/
theorem verify_not_found_still_waits (o : Oracle) (p q : Int) (a b : Nat)
    (hled : o.ledOk = true)
    (hwf : o.readFingerRes = Except.ok ())
    (hwr : o.readRemovedRes = Except.ok ())
    (hc1 : o.convert1Ok = true)
    (hsearch : o.searchRes = Except.ok (p, a))
    (hmiss : p < 0)
    (hhit : 0 ≤ q) :
    verify_finger connectedManager o =
      ⟨Except.ok (false, none, none),
       wffTrace ++
         [Ev.convertImage 1, Ev.search, Ev.ledBlink LEDColor.red,
          Ev.sleepTenths 10, Ev.ledOff] ++ wfrTrace⟩ ∧
    verify_finger connectedManager { o with searchRes := Except.ok (q, b) } =
      ⟨Except.ok (true, some q, some b),
       wffTrace ++
         [Ev.convertImage 1, Ev.search, Ev.ledOn LEDColor.green,
          Ev.sleepTenths 10, Ev.ledOff] ++ wfrTrace⟩ := by
  have hnp : ¬ p ≥ 0 := by omega
  constructor
  · simp [verify_finger, connectedManager_connected, devQuery, devAct, hc1,
      hsearch, wait_for_finger_ok o hled hwf, wait_finger_removed_ok o hled hwr,
      set_led_status, ledCmd, sleepTenths, hled, M.bind_ok, M.bind_error,
      M.attempt_ok, M.attempt_error, M.ret, hnp, wffTrace, wfrTrace]
  · exact verify_match_ok { o with searchRes := Except.ok (q, b) } q b hled hwf
      hwr hc1 rfl hhit

/-- C5 witness: concrete no-match device, with the matching device for
the success-path trace. -/
theorem verify_not_found_still_waits_witness :
    verify_finger connectedManager noMatchOracle =
      ⟨Except.ok (false, none, none),
       wffTrace ++
         [Ev.convertImage 1, Ev.search, Ev.ledBlink LEDColor.red,
          Ev.sleepTenths 10, Ev.ledOff] ++ wfrTrace⟩ ∧
    verify_finger connectedManager { noMatchOracle with searchRes := Except.ok (3, 100) } =
      ⟨Except.ok (true, some 3, some 100),
       wffTrace ++
         [Ev.convertImage 1, Ev.search, Ev.ledOn LEDColor.green,
          Ev.sleepTenths 10, Ev.ledOff] ++ wfrTrace⟩ :=
  verify_not_found_still_waits noMatchOracle (-1) 3 0 100 rfl rfl rfl rfl rfl
    (by decide) (by decide)

/-- Sequencing directed by a known result. -/
theorem M.bind_res_ok {α β : Type} (x : M α) (f : α → M β) (a : α)
    (hx : x.res = Except.ok a) :
    M.bind x f = ⟨(f a).res, x.trace ++ (f a).trace⟩ := by
  simp [M.bind, hx]

/-- Sequencing after a known raise. -/
theorem M.bind_res_error {α β : Type} (x : M α) (f : α → M β)
    (hx : x.res = Except.error ()) :
    M.bind x f = ⟨Except.error (), x.trace⟩ := by
  simp [M.bind, hx]

/-- A `try` whose body is known to return normally. -/
theorem M.attempt_res_ok {α : Type} (x h : M α) (a : α)
    (hx : x.res = Except.ok a) :
    M.attempt x h = ⟨Except.ok a, x.trace⟩ := by
  simp [M.attempt, hx]

/-- A `try` whose body is known to raise. -/
theorem M.attempt_res_error {α : Type} (x h : M α)
    (hx : x.res = Except.error ()) :
    M.attempt x h = ⟨h.res, x.trace ++ h.trace⟩ := by
  simp [M.attempt, hx]

/-- With a broken LED a verify on a connected manager raises at the very
first LED write, and the error handler's own LED write re-raises. -/
theorem verify_led_broken (o : Oracle) (hled : o.ledOk = false) :
    verify_finger connectedManager o =
      ⟨Except.error (), [Ev.ledBlink LEDColor.blue, Ev.ledOn LEDColor.red]⟩ := by
  simp [verify_finger, wait_for_finger, connectedManager_connected, ledCmd,
    set_led_status, hled, M.bind_ok, M.bind_error, M.attempt_ok,
    M.attempt_error, M.ret]

/-- Every result a verify can produce: an escaped exception, the
not-found failure, or a success carrying a position and an accuracy. -/
theorem verify_res_inventory (m : Manager) (o : Oracle) :
    (verify_finger m o).res = Except.error () ∨
    (verify_finger m o).res = Except.ok (false, none, none) ∨
    ∃ p acc, (verify_finger m o).res = Except.ok (true, some p, some acc) := by
  obtain ⟨fc⟩ := m
  obtain ⟨tc, sc, rf, rr, c1, c2, sr, cr, st, dl, cl, led⟩ := o
  cases fc <;> cases led <;>
    rcases rf with ⟨⟨⟩⟩ | ⟨⟨⟩⟩ <;> rcases rr with ⟨⟨⟩⟩ | ⟨⟨⟩⟩ <;>
    cases c1 <;> rcases sr with ⟨⟨⟩⟩ | ⟨⟨p, a⟩⟩ <;>
    simp [verify_finger, wait_for_finger, wait_finger_removed, set_led_status,
      ledCmd, devQuery, devAct, sleepTenths, M.bind, M.attempt, M.ret] <;>
    split_ifs <;> simp

/-- A verify never issues a delete command. -/
theorem verify_no_delete (m : Manager) (o : Oracle) (s : Option Int) :
    Ev.deleteTemplate s ∉ (verify_finger m o).trace := by
  obtain ⟨fc⟩ := m
  obtain ⟨tc, sc, rf, rr, c1, c2, sr, cr, st, dl, cl, led⟩ := o
  cases fc <;> cases led <;>
    rcases rf with ⟨⟨⟩⟩ | ⟨⟨⟩⟩ <;> rcases rr with ⟨⟨⟩⟩ | ⟨⟨⟩⟩ <;>
    cases c1 <;> rcases sr with ⟨⟨⟩⟩ | ⟨⟨p, a⟩⟩ <;>
    simp [verify_finger, wait_for_finger, wait_finger_removed, set_led_status,
      ledCmd, devQuery, devAct, sleepTenths, M.bind, M.attempt, M.ret] <;>
    split_ifs <;> simp

/-- A `try` over a computation with a prefixed trace: the prefix passes
through unchanged. -/
theorem M.attempt_shift {α : Type} (t : List Ev) (D H : M α) :
    M.attempt ⟨D.res, t ++ D.trace⟩ H =
      ⟨(M.attempt D H).res, t ++ (M.attempt D H).trace⟩ := by
  rcases hD : D.res with e | d <;> simp [M.attempt, hD, List.append_assoc]

/-- C4: delete with no position argument first runs verify; every result
a verify can produce is an exception, not-found, or a success with a
position (first conjunct); on verify success, delete-none behaves
exactly as that verify followed by delete at the found position, result
and device commands alike (second conjunct); when verify does not
succeed, delete-none does not report success and never issues a device
delete command (third conjunct). -/
theorem delete_none_is_verify_then_delete (m : Manager) (o : Oracle) :
    ((verify_finger m o).res = Except.error () ∨
      (verify_finger m o).res = Except.ok (false, none, none) ∨
      ∃ p acc, (verify_finger m o).res = Except.ok (true, some p, some acc)) ∧
    (∀ p acc, (verify_finger m o).res = Except.ok (true, some p, some acc) →
      delete_finger m o none =
        ⟨(delete_finger m o (some p)).res,
         (verify_finger m o).trace ++ (delete_finger m o (some p)).trace⟩) ∧
    (((verify_finger m o).res = Except.error () ∨
        (verify_finger m o).res = Except.ok (false, none, none)) →
      (delete_finger m o none).res ≠ Except.ok true ∧
      ∀ s, Ev.deleteTemplate s ∉ (delete_finger m o none).trace) := by
  refine ⟨verify_res_inventory m o, ?_, ?_⟩
  · intro p acc h
    obtain ⟨fc⟩ := m
    cases fc
    · simp [verify_finger, M.ret] at h
    · calc delete_finger ⟨true⟩ o none
          = M.attempt
              (M.bind (verify_finger ⟨true⟩ o) fun r =>
                if !r.1 then M.ret false else delete_template_call o r.2.1)
              (M.bind (set_led_status o FingerStatus.error) fun _ =>
                M.ret false) := rfl
        _ = M.attempt
              ⟨(delete_template_call o (some p)).res,
               (verify_finger ⟨true⟩ o).trace ++
                 (delete_template_call o (some p)).trace⟩
              (M.bind (set_led_status o FingerStatus.error) fun _ =>
                M.ret false) := by
              rw [M.bind_res_ok _ _ _ h]
              rfl
        _ = ⟨(delete_finger ⟨true⟩ o (some p)).res,
             (verify_finger ⟨true⟩ o).trace ++
               (delete_finger ⟨true⟩ o (some p)).trace⟩ :=
              M.attempt_shift _ _ _
  · intro hfail
    obtain ⟨fc⟩ := m
    cases fc
    · constructor
      · simp [delete_finger, M.ret]
      · intro s
        simp [delete_finger, M.ret]
    · rcases hfail with hErr | hNF
      · have h1 : delete_finger ⟨true⟩ o none =
            ⟨(M.bind (set_led_status o FingerStatus.error) fun _ =>
                M.ret false).res,
             (verify_finger ⟨true⟩ o).trace ++
               (M.bind (set_led_status o FingerStatus.error) fun _ =>
                 M.ret false).trace⟩ := by
          calc delete_finger ⟨true⟩ o none
              = M.attempt
                  (M.bind (verify_finger ⟨true⟩ o) fun r =>
                    if !r.1 then M.ret false else delete_template_call o r.2.1)
                  (M.bind (set_led_status o FingerStatus.error) fun _ =>
                    M.ret false) := rfl
            _ = _ := by
                rw [M.bind_res_error _ _ hErr]
                exact M.attempt_error _ _ _
        rw [h1]
        constructor
        · rcases hled : o.ledOk <;>
            simp [set_led_status, ledCmd, hled, M.bind, M.ret]
        · intro s
          rcases hled : o.ledOk <;>
            simp [set_led_status, ledCmd, hled, M.bind, M.ret, verify_no_delete]
      · have h1 : delete_finger ⟨true⟩ o none =
            ⟨Except.ok false, (verify_finger ⟨true⟩ o).trace ++ []⟩ := by
          calc delete_finger ⟨true⟩ o none
              = M.attempt
                  (M.bind (verify_finger ⟨true⟩ o) fun r =>
                    if !r.1 then M.ret false else delete_template_call o r.2.1)
                  (M.bind (set_led_status o FingerStatus.error) fun _ =>
                    M.ret false) := rfl
            _ = _ := by
                rw [M.bind_res_ok _ _ _ hNF]
                exact M.attempt_res_ok _ _ _ rfl
        rw [h1]
        constructor
        · simp
        · intro s
          simp [verify_no_delete]

/-- C4 witness: on the happy device verify finds slot 3 and delete-none
equals verify-then-delete-at-3; on the no-match device delete-none fails
without any delete command. -/
theorem delete_none_is_verify_then_delete_witness :
    delete_finger connectedManager happyOracle none =
      ⟨(delete_finger connectedManager happyOracle (some 3)).res,
       (verify_finger connectedManager happyOracle).trace ++
         (delete_finger connectedManager happyOracle (some 3)).trace⟩ ∧
    (delete_finger connectedManager noMatchOracle none).res ≠ Except.ok true ∧
    ∀ s, Ev.deleteTemplate s ∉
      (delete_finger connectedManager noMatchOracle none).trace :=
  ⟨(delete_none_is_verify_then_delete connectedManager happyOracle).2.1 3 100 rfl,
   (delete_none_is_verify_then_delete connectedManager noMatchOracle).2.2
     (Or.inr rfl)⟩

/-- C6: if the loop iterations before some point are fault-free with the
stop event clear, then a fault at that point makes the loop emit exactly
the events so far followed by one error broadcast and terminate with the
faulted exit — later iteration inputs are never consumed (no restart),
and the loop function itself returns normally rather than propagating
the exception; a set stop event at that point instead stops the loop
cooperatively with no error broadcast. -/
theorem continuous_loop_fault_terminal (pre : List IterIn) (i : IterIn)
    (rest : List IterIn)
    (hclean : ∀ j ∈ pre, j.stopSet = false ∧ j.step ≠ IterStep.fault) :
    (i.stopSet = false → i.step = IterStep.fault →
      continuous_loop (pre ++ i :: rest) =
        (cleanIterEvents pre ++ [LoopEv.broadcastError], LoopExit.faulted)) ∧
    (i.stopSet = true →
      continuous_loop (pre ++ i :: rest) =
        (cleanIterEvents pre, LoopExit.stopped)) := by
  induction pre with
  | nil =>
    constructor
    · intro h1 h2
      simp [continuous_loop, h1, h2, cleanIterEvents]
    · intro h1
      simp [continuous_loop, h1, cleanIterEvents]
  | cons j js ih =>
    have hj := hclean j (by simp)
    have hjs : ∀ k ∈ js, k.stopSet = false ∧ k.step ≠ IterStep.fault :=
      fun k hk => hclean k (by simp [hk])
    have ihs := ih hjs
    constructor
    · intro h1 h2
      simp [continuous_loop, hj.1, hj.2, cleanIterEvents, ihs.1 h1 h2]
    · intro h1
      simp [continuous_loop, hj.1, hj.2, cleanIterEvents, ihs.2 h1]

/-- C6 witness: two clean iterations, then a fault; the trailing input
is never consumed. -/
theorem continuous_loop_fault_terminal_witness :
    continuous_loop
        [⟨false, IterStep.noImage⟩, ⟨false, IterStep.image 2 50⟩,
         ⟨false, IterStep.fault⟩, ⟨false, IterStep.noImage⟩] =
      ([LoopEv.slept, LoopEv.broadcastVerify true (some 2) (some 50),
        LoopEv.waitRemoved, LoopEv.broadcastError], LoopExit.faulted) := by
  have h := (continuous_loop_fault_terminal
    [⟨false, IterStep.noImage⟩, ⟨false, IterStep.image 2 50⟩]
    ⟨false, IterStep.fault⟩ [⟨false, IterStep.noImage⟩] (by decide)).1 rfl rfl
  simpa [cleanIterEvents, iterBodyEvents] using h

/-- One background transition preserves the instance-count invariant. -/
theorem bgInv_step (s : BgState) (op : BgOp) (h : bgInv s) :
    bgInv (bgStep s op) := by
  cases op <;>
    simp [bgStep, start_continuous, stop_continuous, bgInv] at h ⊢ <;>
    split_ifs at h ⊢ <;> simp_all

/-- The invariant holds after any event sequence from any invariant
state. -/
theorem bgInv_foldl (ops : List BgOp) :
    ∀ s : BgState, bgInv s → bgInv (ops.foldl bgStep s) := by
  induction ops with
  | nil => intro s h; exact h
  | cons op rest ih => intro s h; exact ih _ (bgInv_step s op h)

/-- C7: across every sequence of start, stop and loop-termination events
at most one loop instance is ever active; a start while the loop thread
is alive returns `False` and changes nothing (no second instance); and a
stop call only sets the stop event — when no loop is running it is a
harmless no-op that spawns and kills nothing. -/
theorem continuous_single_instance :
    (∀ ops : List BgOp, (bgRun ops).activeLoops ≤ 1) ∧
    (∀ s : BgState, s.threadSpawned = true → s.threadAlive = true →
      start_continuous s = (false, s)) ∧
    (∀ s : BgState, stop_continuous s = (true, { s with stopEvent := true })) := by
  refine ⟨?_, ?_, fun s => rfl⟩
  · intro ops
    have h := bgInv_foldl ops initialBgState (by simp [bgInv, initialBgState])
    unfold bgInv at h
    unfold bgRun
    split at h <;> omega
  · intro s h1 h2
    simp [start_continuous, h1, h2]

/-- C7 witness: a concrete event sequence keeps the instance count at
most one; a concrete running state rejects a second start; stop on the
initial (idle) state only sets the stop event. -/
theorem continuous_single_instance_witness :
    (bgRun [BgOp.start, BgOp.start, BgOp.stop, BgOp.stop, BgOp.start,
      BgOp.loopEnds]).activeLoops ≤ 1 ∧
    start_continuous
        { threadSpawned := true, threadAlive := true, stopEvent := false,
          activeLoops := 1 } =
      (false,
       { threadSpawned := true, threadAlive := true, stopEvent := false,
         activeLoops := 1 }) ∧
    stop_continuous initialBgState =
      (true, { initialBgState with stopEvent := true }) :=
  ⟨continuous_single_instance.1 _, continuous_single_instance.2.1 _ rfl rfl,
   continuous_single_instance.2.2 _⟩

end FingerBerry
